import Mathlib

/-
Verification of the retry/fallback/circuit-breaker resilience layer and the
concurrency-bounded bulk email engine of the WeReach repository.

Source files embedded here:
  - web_scraper_app/utils/retry_manager.py
      (RetryConfig.calculate_delay, RetryManager._execute_with_retry,
       RetryManager._is_retryable_exception, FallbackManager.register_fallback,
       FallbackManager.execute_with_fallback, CircuitBreaker)
  - web_scraper_app/utils/exceptions.py (the exception hierarchy, flattened to
      the classes the resilience layer actually inspects)
  - web_scraper_app/core/email_sender.py
      (EmailSender.send_email decorator stack, EmailSender.send_bulk_emails)

Python floats are modelled as rationals, wall-clock time as integers, and the
random jitter sample as an explicit parameter.  Exceptions are modelled as a
class tag plus a message string; `isinstance` checks against the concrete
classes the code names become tag comparisons (none of the modelled classes is
a strict subclass of another modelled class, so the flattening is faithful).
-/

namespace WeReach

/-- Exception classes (from `utils/exceptions.py`, `smtplib`, and the local
classes of `core/email_sender.py`) that the resilience layer inspects. -/
inductive ExcClass where
  | networkException
  | validationException
  | retryableException
  | aiException
  | emailException
  | smtpException
  | emailSendException
  | genericException
deriving DecidableEq

/-- A raised Python exception: its class and its `str(e)` message. -/
structure PyExc where
  cls : ExcClass
  msg : String
deriving DecidableEq

/-- `isinstance(e, BaseScraperException)`: the classes of `utils/exceptions.py`
(NetworkException, ValidationException, RetryableException, AIException,
EmailException) derive from BaseScraperException; `smtplib.SMTPException`, the
local `EmailSendException` of `core/email_sender.py`, and plain `Exception` do
not. -/
def isBaseScraperException : ExcClass → Bool
  | .networkException => true
  | .validationException => true
  | .retryableException => true
  | .aiException => true
  | .emailException => true
  | _ => false

/-- `RetryStrategy` enum from `utils/retry_manager.py`. -/
inductive RetryStrategy where
  | exponential_backoff
  | linear_backoff
  | fixed_delay
  | immediate
deriving DecidableEq

/-- `RetryConfig` dataclass from `utils/retry_manager.py`, with its source
defaults.  `retryable_exceptions` holds the class tags of the tuple. -/
structure RetryConfig where
  max_attempts : Nat := 3
  base_delay : ℚ := 1
  max_delay : ℚ := 60
  backoff_multiplier : ℚ := 2
  jitter : Bool := true
  strategy : RetryStrategy := .exponential_backoff
  retryable_exceptions : List ExcClass :=
    [.networkException, .aiException, .emailException]
deriving DecidableEq

/-- `RetryConfig.calculate_delay`.  `noise` is the value sampled by
`random.uniform(-0.1*delay, 0.1*delay)` when jitter applies; it is unused when
`jitter` is false. -/
def RetryConfig.calculate_delay (c : RetryConfig) (attempt : Nat) (noise : ℚ) : ℚ :=
  let delay :=
    match c.strategy with
    | .exponential_backoff => c.base_delay * c.backoff_multiplier ^ attempt
    | .linear_backoff => c.base_delay * ((attempt : ℚ) + 1)
    | .fixed_delay => c.base_delay
    | .immediate => 0
  let delay := min delay c.max_delay
  let delay := if c.jitter ∧ 0 < delay then delay + noise else delay
  max 0 delay

/-- The fixed transient-failure substrings of
`RetryManager._is_retryable_exception`. -/
def retryable_patterns : List String :=
  ["timeout", "connection", "network", "temporary", "rate limit",
   "service unavailable", "internal server error", "bad gateway"]

/-- `pat` is a prefix of `s` (character lists). -/
def charsPrefix : List Char → List Char → Bool
  | [], _ => true
  | _ :: _, [] => false
  | p :: ps, c :: cs => p == c && charsPrefix ps cs

/-- `pat` occurs as a contiguous substring of `s` (character lists). -/
def charsContains (pat : List Char) : List Char → Bool
  | [] => charsPrefix pat []
  | c :: cs => charsPrefix pat (c :: cs) || charsContains pat cs

/-- Python `pattern in s` (substring containment). -/
def containsPattern (s pat : String) : Bool := charsContains pat.data s.data

/-- Python `s.lower()` (ASCII case folding suffices for the fixed patterns). -/
def strToLower (s : String) : String := ⟨s.data.map Char.toLower⟩

/-- `RetryManager._is_retryable_exception`: retryable iff the exception is an
instance of `config.retryable_exceptions`, or is a `RetryableException`, or its
lowercased message contains one of the transient-failure substrings. -/
def is_retryable_exception (config : RetryConfig) (e : PyExc) : Bool :=
  config.retryable_exceptions.contains e.cls
  || e.cls == .retryableException
  || retryable_patterns.any (fun pat => containsPattern (strToLower e.msg) pat)

end WeReach

deriving instance DecidableEq for Except

namespace WeReach

/-- Outcome of `RetryManager._execute_with_retry` /
`_execute_async_with_retry`, with the number of times the wrapped operation
was invoked.  `nonRetryable` is the immediate re-raise of a non-retryable
exception; `exhausted` is the raise after the loop ends, carrying both the
exception actually raised and the last error of the final attempt. -/
inductive RetryRes (α : Type) where
  | ok (v : α) (calls : Nat)
  | nonRetryable (e : PyExc) (calls : Nat)
  | exhausted (raised : PyExc) (last : Option PyExc) (calls : Nat)
deriving DecidableEq

/-- Number of invocations of the wrapped operation recorded in a result. -/
def RetryRes.calls : RetryRes α → Nat
  | .ok _ n => n
  | .nonRetryable _ n => n
  | .exhausted _ _ n => n

/-- Events observable while the stacked decorators of
`EmailSender.send_email` run: a call of the primary operation on retry
attempt `attempt`, or a call of the fallback handler registered with
`priority`. -/
inductive TraceEv where
  | primary (attempt : Nat)
  | fallback (priority : Int)
deriving DecidableEq

/-- The exception raised once all attempts failed: a `BaseScraperException` is
re-raised as is (with its retry_count updated, which we do not track);
anything else is wrapped in a `RetryableException` whose message embeds the
last error. -/
def wrap_last (c : RetryConfig) (last : Option PyExc) : PyExc :=
  match last with
  | some e =>
    if isBaseScraperException e.cls then e
    else ⟨.retryableException,
      "Operation failed after " ++ toString c.max_attempts ++ " attempts: " ++ e.msg⟩
  | none =>
    ⟨.retryableException,
      "Operation failed after " ++ toString c.max_attempts ++ " attempts: None"⟩

/-- The `for attempt in range(config.max_attempts)` loop of
`RetryManager._execute_with_retry` (the async variant has identical
semantics).  `g attempt` is what the wrapped callable does on that attempt,
together with the trace events it generates; `fuel` is the number of loop
iterations left (`max_attempts - attempt`); `acc` accumulates the trace.  On
success the result returns immediately; a non-retryable error re-raises
immediately; on the last iteration (`attempt >= max_attempts - 1`) the loop
breaks and the final raise of `wrap_last` happens. -/
def retry_loop (c : RetryConfig) (g : Nat → Except PyExc α × List TraceEv) :
    Nat → Nat → List TraceEv → RetryRes α × List TraceEv
  | attempt, 0, acc => (.exhausted (wrap_last c none) none attempt, acc)
  | attempt, fuel+1, acc =>
    let r := g attempt
    let acc2 := acc ++ r.2
    match r.1 with
    | .ok v => (.ok v (attempt+1), acc2)
    | .error e =>
      if is_retryable_exception c e then
        if fuel = 0 then
          (.exhausted (wrap_last c (some e)) (some e) (attempt+1), acc2)
        else retry_loop c g (attempt+1) fuel acc2
      else (.nonRetryable e (attempt+1), acc2)

/-- `RetryManager._execute_with_retry` applied to a bare operation (no
fallback wrapping); `op n` is the outcome of the n-th invocation. -/
def execute_with_retry (c : RetryConfig) (op : Nat → Except PyExc α) : RetryRes α :=
  (retry_loop c (fun n => (op n, [])) 0 c.max_attempts []).1

end WeReach

namespace WeReach

/-- A registered fallback handler: an identifying name and what the handler
does when called with the (fixed) arguments of the failed call. -/
structure FbHandler (α : Type) where
  id : String
  beh : Except PyExc α
deriving DecidableEq

/-- The loop over `self.fallback_handlers[operation_name]` in
`FallbackManager.execute_with_fallback` after the primary failed with `e`:
handlers are tried in list order; the first success returns; if every handler
fails (or none is registered) the original primary exception is re-raised.
Also returns the `(priority, handler)` entries tried, in order. -/
def try_fallbacks (e : PyExc) : List (Int × FbHandler α) → Except PyExc α × List (Int × String)
  | [] => (.error e, [])
  | (p, h) :: rest =>
    match h.beh with
    | .ok v => (.ok v, [(p, h.id)])
    | .error _ =>
      let r := try_fallbacks e rest
      (r.1, (p, h.id) :: r.2)

/-- `FallbackManager.execute_with_fallback` (the async variant has identical
ordering/fallthrough semantics): call the primary; on success return its
result without touching any handler; on failure run the fallback chain. -/
def execute_with_fallback (primary : Except PyExc α)
    (handlers : List (Int × FbHandler α)) : Except PyExc α × List (Int × String) :=
  match primary with
  | .ok v => (.ok v, [])
  | .error e => try_fallbacks e handlers

/-- Insert `x` into a priority-sorted list, before any entry of equal
priority already present later in the pass (the insertion step of a stable
insertion sort keyed on `x[0]`). -/
def insort {β : Type} (x : Int × β) : List (Int × β) → List (Int × β)
  | [] => [x]
  | y :: ys => if y.1 < x.1 then y :: insort x ys else x :: y :: ys

/-- The `list.sort(key=lambda x: x[0])` call of
`FallbackManager.register_fallback`: Python `list.sort` is a stable sort
keyed on the priority, modelled here by a stable insertion sort (any stable
sorting algorithm computes the same list). -/
def sort_by_priority {β : Type} : List (Int × β) → List (Int × β)
  | [] => []
  | x :: xs => insort x (sort_by_priority xs)

/-- `FallbackManager.register_fallback` for one operation name: append the
`(priority, handler)` pair and re-sort by priority. -/
def register_fallback (handlers : List (Int × FbHandler α)) (p : Int)
    (h : FbHandler α) : List (Int × FbHandler α) :=
  sort_by_priority (handlers ++ [(p, h)])

/-- The handler list obtained from a sequence of `register_fallback` calls for
one operation name, starting from the empty registry. -/
def apply_registrations (regs : List (Int × FbHandler α)) : List (Int × FbHandler α) :=
  regs.foldl (fun hs r => register_fallback hs r.1 r.2) []

/-- One invocation of the `@with_async_fallback`-wrapped `send_email` body on
retry attempt `attempt`: the primary runs first, then (only on primary
failure) the fallback chain; the trace records the primary call followed by
each fallback call. -/
def fallback_round (primary : Except PyExc α) (handlers : List (Int × FbHandler α))
    (attempt : Nat) : Except PyExc α × List TraceEv :=
  let r := execute_with_fallback primary handlers
  (r.1, .primary attempt :: r.2.map (fun pt => .fallback pt.1))

/-- The stacked decorators on `EmailSender.send_email`:
`@async_retry_on_failure(config)` applied OUTSIDE `@with_async_fallback`, so
every retry attempt invokes the fallback-wrapped operation.  `primary n` is
what the undecorated body does on the n-th attempt. -/
def send_email_stacked (c : RetryConfig) (primary : Nat → Except PyExc α)
    (handlers : List (Int × FbHandler α)) : RetryRes α × List TraceEv :=
  retry_loop c (fun n => fallback_round (primary n) handlers n) 0 c.max_attempts []

/-- Circuit breaker phases (the `"closed"` / `"open"` / `"half_open"` strings
of `CircuitBreaker`); `opened` is the `"open"` state. -/
inductive CBPhase where
  | closed
  | opened
  | halfOpen
deriving DecidableEq

/-- `CircuitBreaker` instance state, with its source defaults.  Wall-clock
time (`time.time()`) is modelled as an integer. -/
structure CircuitBreaker where
  failure_threshold : Nat := 5
  recovery_timeout : Int := 60
  failure_count : Nat := 0
  last_failure_time : Option Int := none
  state : CBPhase := .closed
deriving DecidableEq

/-- `CircuitBreaker._should_attempt_reset` at time `now`. -/
def should_attempt_reset (cb : CircuitBreaker) (now : Int) : Bool :=
  match cb.last_failure_time with
  | none => true
  | some t => cb.recovery_timeout ≤ now - t

/-- `CircuitBreaker._on_success`: only a half-open probe success resets the
breaker; a success while closed changes nothing. -/
def on_success (cb : CircuitBreaker) : CircuitBreaker :=
  if cb.state == .halfOpen then
    { cb with state := .closed, failure_count := 0 }
  else cb

/-- `CircuitBreaker._on_failure` at time `now`. -/
def on_failure (cb : CircuitBreaker) (now : Int) : CircuitBreaker :=
  let c := cb.failure_count + 1
  { cb with
    failure_count := c
    last_failure_time := some now
    state := if cb.failure_threshold ≤ c then .opened else cb.state }

/-- Result of one call through the circuit breaker: `rejected` is the
"circuit breaker is open" raise that happens WITHOUT invoking the wrapped
operation; otherwise the operation was invoked and succeeded or raised. -/
inductive CBResult (α : Type) where
  | rejected
  | ok (v : α)
  | raised (e : PyExc)
deriving DecidableEq

/-- The body of `CircuitBreaker._execute_with_circuit_breaker` after the
open-state gate: invoke the operation (whose would-be outcome is `op`) and
update the breaker. -/
def cb_invoke (cb : CircuitBreaker) (now : Int) (op : Except PyExc α) :
    CBResult α × CircuitBreaker :=
  match op with
  | .ok v => (.ok v, on_success cb)
  | .error e => (.raised e, on_failure cb now)

/-- `CircuitBreaker._execute_with_circuit_breaker` at time `now`: while open,
either move to half-open (timeout elapsed) and invoke, or reject without
invoking. -/
def circuit_breaker_call (cb : CircuitBreaker) (now : Int) (op : Except PyExc α) :
    CBResult α × CircuitBreaker :=
  if cb.state == .opened then
    if should_attempt_reset cb now then
      cb_invoke { cb with state := .halfOpen } now op
    else (.rejected, cb)
  else cb_invoke cb now op

/-- Fold a sequence of timestamped calls through the breaker, keeping the
final breaker state. -/
def circuit_breaker_run (cb : CircuitBreaker) (calls : List (Int × Except PyExc α)) :
    CircuitBreaker :=
  calls.foldl (fun s c => (circuit_breaker_call s c.1 c.2).2) cb

end WeReach

namespace WeReach

/-- What the (decorated) `send_email` coroutine does for one bulk item, as
observed by `send_single_email` in `EmailSender.send_bulk_emails`: it returns
a dict with `success=True` (carrying an optional database record id), returns
a dict with `success=False`, or raises. -/
inductive SendBehavior where
  | returnsOk (record_id : Option Nat)
  | returnsFailed
  | raises (e : PyExc)
deriving DecidableEq

/-- One entry of the `email_contents` list, together with what sending it
does. -/
structure EmailItem where
  recipient : String
  subject : String
  behavior : SendBehavior
deriving DecidableEq

/-- One entry of the `failed_emails` list built by `send_bulk_emails`. -/
structure FailedEmail where
  recipient : String
  subject : String
  error : String
deriving DecidableEq

/-- The mutable state shared by the `send_single_email` closures inside
`send_bulk_emails`.  `progress_events` records, in completion order, the
`i + 1` value each progress-callback invocation reports (the callback receives
`((i+1)/total)*100` and the label `Sent {i+1}/{total} emails`, both determined
by `i + 1`). -/
structure BulkState where
  successful_sends : Nat := 0
  failed_sends : Nat := 0
  failed_emails : List FailedEmail := []
  sent_email_ids : List Nat := []
  progress_events : List Nat := []
deriving DecidableEq

/-- The body of the inner `send_single_email(i, email_data)` coroutine of
`send_bulk_emails`, run to completion: on a `success=True` dict it increments
`successful_sends`, records the id, and reports progress; on a `success=False`
dict it increments `failed_sends`, appends a `Failed to send email` entry, and
reports progress; when the awaited call raises, the `except` block increments
`failed_sends` and appends `str(e)` WITHOUT reporting progress. -/
def send_single_email (st : BulkState) (i : Nat) (item : EmailItem) : BulkState :=
  match item.behavior with
  | .returnsOk rid =>
    { st with
      successful_sends := st.successful_sends + 1
      sent_email_ids := st.sent_email_ids ++ (match rid with | some r => [r] | none => [])
      progress_events := st.progress_events ++ [i + 1] }
  | .returnsFailed =>
    { st with
      failed_sends := st.failed_sends + 1
      failed_emails := st.failed_emails ++ [⟨item.recipient, item.subject, "Failed to send email"⟩]
      progress_events := st.progress_events ++ [i + 1] }
  | .raises e =>
    { st with
      failed_sends := st.failed_sends + 1
      failed_emails := st.failed_emails ++ [⟨item.recipient, item.subject, e.msg⟩] }

/-- Completion of the task for item index `i` (out-of-range indices do
nothing). -/
def bulk_step (items : List EmailItem) (st : BulkState) (i : Nat) : BulkState :=
  match items[i]? with
  | some item => send_single_email st i item
  | none => st

/-- `EmailSender.send_bulk_emails`: all per-item tasks run under
`asyncio.gather`; each task's counter updates, list appends and progress
report form one atomic chunk between awaits, so a run is the execution of
these chunks in some completion order.  `order` is that completion order (a
permutation of the item indices for a full run). -/
def send_bulk_emails (items : List EmailItem) (order : List Nat) : BulkState :=
  order.foldl (bulk_step items) {}

/-- The `SendResult` dataclass of `core/email_sender.py`. -/
structure SendResult where
  total_emails : Nat
  successful_sends : Nat
  failed_sends : Nat
  failed_emails : List FailedEmail
deriving DecidableEq

/-- The `SendResult` constructed at the end of `send_bulk_emails`. -/
def bulk_result (items : List EmailItem) (order : List Nat) : SendResult :=
  let st := send_bulk_emails items order
  ⟨items.length, st.successful_sends, st.failed_sends, st.failed_emails⟩

/-- Input of one `send_email` call.  The boolean fields abstract the oracle
validations of the body: `EmailModel.is_valid_email(recipient)`,
`subject.strip()` truthiness and `body.strip()` truthiness. -/
structure EmailInput where
  recipient : String
  subject : String
  body : String
  recipient_valid : Bool
  subject_nonempty : Bool
  body_nonempty : Bool

/-- The dict returned by a successful run of the `send_email` body. -/
structure SendDict where
  success : Bool
  email_record_id : Option Nat
  recipient : String
  status : String
deriving DecidableEq

/-- The undecorated body of `EmailSender.send_email`: validation raises
`EmailSendException` (the local class of `core/email_sender.py`); otherwise
`_send_email_sync` runs in the thread pool and returns a bare boolean
`smtp_ok` (it catches every exception during connect/send and returns False),
and the body returns a normal dict whose `success` field is that boolean.
`record_id` is the database record id assigned when tracking. -/
def send_email_body (inp : EmailInput) (record_id : Option Nat) (smtp_ok : Bool) :
    Except PyExc SendDict :=
  if inp.recipient_valid = false then
    .error ⟨.emailSendException, "Invalid recipient email: " ++ inp.recipient⟩
  else if inp.subject_nonempty = false then
    .error ⟨.emailSendException, "Email subject cannot be empty"⟩
  else if inp.body_nonempty = false then
    .error ⟨.emailSendException, "Email body cannot be empty"⟩
  else
    .ok ⟨smtp_ok, record_id, inp.recipient, if smtp_ok then ("sent") else ("failed")⟩

/-- The `RetryConfig` passed to `@async_retry_on_failure` on
`EmailSender.send_email` (jitter and backoff multiplier keep their dataclass
defaults). -/
def send_email_retry_config : RetryConfig :=
  { max_attempts := 3
    base_delay := 5
    max_delay := 120
    strategy := .exponential_backoff
    retryable_exceptions := [.emailException, .retryableException, .smtpException] }

/-- The fully decorated `send_email` call for one item: the stacked
decorators applied to the body, with the `send_email` fallback chain. -/
def resilient_send_email (inp : EmailInput) (record_id : Option Nat) (smtp_ok : Bool)
    (handlers : List (Int × FbHandler SendDict)) : RetryRes SendDict × List TraceEv :=
  send_email_stacked send_email_retry_config
    (fun _ => send_email_body inp record_id smtp_ok) handlers

/-- Phase of one per-item task of `send_bulk_emails` with respect to the
semaphore: not yet acquired, inside the `async with semaphore` block, or
finished. -/
inductive TaskPhase where
  | pending
  | inFlight
  | done
deriving DecidableEq

/-- Number of tasks currently inside the semaphore block. -/
def in_flight_count (s : List TaskPhase) : Nat :=
  s.countP (fun p => p == .inFlight)

/-- Interleaving semantics of the semaphore-bounded tasks of
`send_bulk_emails`: `asyncio.Semaphore(c)` lets a pending task enter the
`async with semaphore` block only while fewer than `c` tasks are inside it
(the whole `send_single_email` body runs inside the block), and a task inside
the block may finish, releasing the semaphore. -/
inductive BulkTaskStep (c : Nat) : List TaskPhase → List TaskPhase → Prop
  | acquire (s : List TaskPhase) (i : Nat) (h : s[i]? = some .pending)
      (hc : in_flight_count s < c) : BulkTaskStep c s (s.set i .inFlight)
  | finish (s : List TaskPhase) (i : Nat) (h : s[i]? = some .inFlight) :
      BulkTaskStep c s (s.set i .done)

/-- States reachable during a bulk run of `n` items with
`max_concurrent = c`, starting from all tasks pending. -/
def BulkReachable (c n : Nat) (s : List TaskPhase) : Prop :=
  Relation.ReflTransGen (BulkTaskStep c) (List.replicate n .pending) s

end WeReach

namespace WeReach

/-- Trace generated by attempts `attempt, attempt+1, ...` over `fuel` loop
iterations: the per-attempt chunks of `g`, concatenated. -/
def chunk_trace (g : Nat → Except PyExc α × List TraceEv) : Nat → Nat → List TraceEv
  | _, 0 => []
  | attempt, fuel+1 => (g attempt).2 ++ chunk_trace g (attempt+1) fuel

/-- One retry-loop iteration that fails with a retryable error and has
iterations left moves on to the next attempt. -/
theorem retry_loop_step (c : RetryConfig) (g : Nat → Except PyExc α × List TraceEv)
    (attempt fuel : Nat) (acc : List TraceEv) (e : PyExc)
    (hg : (g attempt).1 = .error e)
    (hre : is_retryable_exception c e = true)
    (hf : fuel ≠ 0) :
    retry_loop c g attempt (fuel+1) acc =
      retry_loop c g (attempt+1) fuel (acc ++ (g attempt).2) := by
  conv_lhs => rw [retry_loop]
  simp [hg, hre, hf]

/-- The final retry-loop iteration that fails with a retryable error raises
the exhausted-retries exception. -/
theorem retry_loop_last (c : RetryConfig) (g : Nat → Except PyExc α × List TraceEv)
    (attempt : Nat) (acc : List TraceEv) (e : PyExc)
    (hg : (g attempt).1 = .error e)
    (hre : is_retryable_exception c e = true) :
    retry_loop c g attempt 1 acc =
      (.exhausted (wrap_last c (some e)) (some e) (attempt+1), acc ++ (g attempt).2) := by
  conv_lhs => rw [retry_loop]
  simp [hg, hre]

/-- A retry-loop iteration whose call returns normally stops the loop. -/
theorem retry_loop_ok (c : RetryConfig) (g : Nat → Except PyExc α × List TraceEv)
    (attempt fuel : Nat) (acc : List TraceEv) (v : α)
    (hg : (g attempt).1 = .ok v) :
    retry_loop c g attempt (fuel+1) acc = (.ok v (attempt+1), acc ++ (g attempt).2) := by
  conv_lhs => rw [retry_loop]
  simp [hg]

/-- Behavior of the retry loop on an operation that fails with a retryable
error on every attempt: all `fuel` remaining attempts are used, the loop
exhausts, and the last attempt's error is surfaced. -/
theorem retry_loop_always_error (c : RetryConfig)
    (g : Nat → Except PyExc α × List TraceEv) (err : Nat → PyExc)
    (hg : ∀ n, (g n).1 = .error (err n))
    (hr : ∀ n, is_retryable_exception c (err n) = true) :
    ∀ (fuel attempt : Nat) (acc : List TraceEv),
      retry_loop c g attempt (fuel+1) acc =
        (.exhausted (wrap_last c (some (err (attempt+fuel)))) (some (err (attempt+fuel)))
          (attempt+fuel+1),
         acc ++ chunk_trace g attempt (fuel+1)) := by
  intro fuel
  induction fuel with
  | zero =>
    intro attempt acc
    rw [retry_loop_last c g attempt acc (err attempt) (hg attempt) (hr attempt)]
    simp [chunk_trace]
  | succ f ih =>
    intro attempt acc
    rw [retry_loop_step c g attempt (f+1) acc (err attempt) (hg attempt) (hr attempt)
      (Nat.succ_ne_zero f)]
    rw [ih (attempt+1) (acc ++ (g attempt).2)]
    rw [show attempt + (f + 1) = attempt + 1 + f by omega]
    simp [chunk_trace, List.append_assoc]

/-- C3: for a config with `max_attempts = k ≥ 1` and an operation that always
fails with a retryable error, the retry executor invokes the operation
exactly `k` times and then surfaces the exhausted-retries failure carrying
the last attempt's error. -/
theorem c3_attempt_bound {α : Type} (c : RetryConfig) (err : Nat → PyExc)
    (hk : 1 ≤ c.max_attempts)
    (hr : ∀ n, is_retryable_exception c (err n) = true) :
    execute_with_retry c (fun n => (.error (err n) : Except PyExc α)) =
      .exhausted (wrap_last c (some (err (c.max_attempts - 1))))
        (some (err (c.max_attempts - 1))) c.max_attempts := by
  obtain ⟨f, hf⟩ : ∃ f, c.max_attempts = f + 1 := ⟨c.max_attempts - 1, by omega⟩
  unfold execute_with_retry
  rw [hf, retry_loop_always_error c _ err (fun n => rfl) hr f 0 []]
  simp [hf]

/-- Config used by the C3 witness. -/
def c3w_config : RetryConfig := { max_attempts := 3, jitter := false }

/-- Error used by the C3 witness. -/
def c3w_err : PyExc := ⟨.networkException, "network down"⟩

/-- C3 witness: the attempt-bound theorem at a concrete always-failing
operation with `max_attempts = 3`. -/
theorem c3_attempt_bound_witness :
    execute_with_retry c3w_config (fun _ => (.error c3w_err : Except PyExc Nat)) =
      .exhausted c3w_err (some c3w_err) 3 := by
  have hr : ∀ n : Nat, is_retryable_exception c3w_config c3w_err = true :=
    fun _ => by decide
  have h := c3_attempt_bound (α := Nat) c3w_config (fun _ => c3w_err) (by decide) hr
  simpa [wrap_last, c3w_config, c3w_err, isBaseScraperException] using h

/-- Config of the C4 counterexample: the dataclass defaults with
`max_attempts = 2`. -/
def c4cx_config : RetryConfig := { max_attempts := 2 }

/-- A `ValidationException` whose message happens to contain the substring
`connection`. -/
def c4cx_error : PyExc := ⟨.validationException, "connection refused"⟩

/-- C4 counterexample: an operation that always fails with this
`ValidationException` is invoked TWICE under `max_attempts = 2` (the
message-substring classifier makes it retryable), and the error surfaces as
an exhausted-retries failure rather than an immediate propagation — refuting
"invokes the operation exactly once ... for every ValidationException". -/
theorem c4_counterexample :
    execute_with_retry c4cx_config (fun _ => (.error c4cx_error : Except PyExc Nat)) =
      .exhausted c4cx_error (some c4cx_error) 2 ∧
    (execute_with_retry c4cx_config
      (fun _ => (.error c4cx_error : Except PyExc Nat))).calls ≠ 1 := by
  decide

/-- C4 (amended): a `ValidationException` is invoked exactly once and
propagated immediately by the retry executor (which never touches fallback
handlers), PROVIDED its lowercased message contains none of the
transient-failure substrings; with the default `retryable_exceptions` tuple
the classifier then reports it non-retryable. -/
theorem c4_amended {α : Type} (c : RetryConfig) (e : PyExc) (op : Nat → Except PyExc α)
    (hk : 1 ≤ c.max_attempts)
    (hcls : e.cls = .validationException)
    (hcfg : c.retryable_exceptions =
      [.networkException, .aiException, .emailException])
    (hmsg : ∀ pat ∈ retryable_patterns, containsPattern (strToLower e.msg) pat = false)
    (hop : op 0 = .error e) :
    execute_with_retry c op = .nonRetryable e 1 := by
  have hret : is_retryable_exception c e = false := by
    have h3 : retryable_patterns.any
        (fun pat => containsPattern (strToLower e.msg) pat) = false := by
      rw [List.any_eq_false]
      intro pat hpat
      simp [hmsg pat hpat]
    simp [is_retryable_exception, hcfg, hcls, h3]
  obtain ⟨f, hf⟩ : ∃ f, c.max_attempts = f + 1 := ⟨c.max_attempts - 1, by omega⟩
  unfold execute_with_retry
  rw [hf]
  simp [retry_loop, hop, hret]

/-- A `ValidationException` carrying its default user message, which contains
no transient-failure substring. -/
def c4w_error : PyExc := ⟨.validationException, "Invalid input provided."⟩

/-- C4 (amended) witness: at the default `RetryConfig`, the clean
`ValidationException` is invoked once and propagated. -/
theorem c4_amended_witness :
    execute_with_retry ({} : RetryConfig) (fun _ => (.error c4w_error : Except PyExc Nat)) =
      .nonRetryable c4w_error 1 :=
  c4_amended {} c4w_error _ (by decide) (by decide) (by decide) (by decide) rfl

end WeReach

namespace WeReach

/-- The trace the stacked decorators generate over `fuel` attempts starting
at attempt `a` when the primary fails every time and no fallback succeeds:
each attempt is one primary call immediately followed by the whole fallback
chain. -/
def stacked_trace (handlers : List (Int × FbHandler α)) : Nat → Nat → List TraceEv
  | _, 0 => []
  | a, f+1 =>
    .primary a :: (handlers.map (fun ph => .fallback ph.1) ++ stacked_trace handlers (a+1) f)

/-- When every registered handler fails, the fallback chain tries all of them
in list order and then re-raises the original primary exception. -/
theorem try_fallbacks_all_fail (e : PyExc) (handlers : List (Int × FbHandler α))
    (hf : ∀ ph ∈ handlers, ∃ e2, ph.2.beh = .error e2) :
    try_fallbacks e handlers = (.error e, handlers.map (fun ph => (ph.1, ph.2.id))) := by
  induction handlers with
  | nil => simp [try_fallbacks]
  | cons ph rest ih =>
    obtain ⟨p, h⟩ := ph
    obtain ⟨e2, he2⟩ := hf (p, h) (by simp)
    have he2' : h.beh = .error e2 := he2
    simp only [try_fallbacks, he2', ih (fun q hq => hf q (by simp [hq])), List.map_cons]

/-- C2 (amended): in the stacked decorators on `send_email` the retry layer
is OUTERMOST, so each of the `max_attempts` retry attempts invokes the
fallback-wrapped operation: on every failed attempt the primary call is
immediately followed by the whole fallback chain, and only then does the next
retry attempt start — fallback handlers run before retries are exhausted,
once per attempt, not only after exhaustion. -/
theorem c2_amended {α : Type} (c : RetryConfig) (primary : Nat → Except PyExc α)
    (err : Nat → PyExc) (handlers : List (Int × FbHandler α))
    (hk : 1 ≤ c.max_attempts)
    (hp : ∀ n, primary n = .error (err n))
    (hr : ∀ n, is_retryable_exception c (err n) = true)
    (hf : ∀ ph ∈ handlers, ∃ e2, ph.2.beh = .error e2) :
    (send_email_stacked c primary handlers).2 = stacked_trace handlers 0 c.max_attempts := by
  have hg : ∀ n, (fallback_round (primary n) handlers n).1 = .error (err n) := by
    intro n
    simp [fallback_round, execute_with_fallback, hp n, try_fallbacks_all_fail _ _ hf]
  obtain ⟨f, hfuel⟩ : ∃ f, c.max_attempts = f + 1 := ⟨c.max_attempts - 1, by omega⟩
  unfold send_email_stacked
  rw [hfuel, retry_loop_always_error c _ err hg hr f 0 []]
  have hround : ∀ a, (fallback_round (primary a) handlers a).2
      = .primary a :: handlers.map (fun ph => .fallback ph.1) := by
    intro a
    simp [fallback_round, execute_with_fallback, hp a, try_fallbacks_all_fail _ _ hf,
      List.map_map, Function.comp]
  suffices h : ∀ fu a, chunk_trace (fun n => fallback_round (primary n) handlers n) a fu
      = stacked_trace handlers a fu by simpa using h (f+1) 0
  intro fu
  induction fu with
  | zero => intro a; simp [chunk_trace, stacked_trace]
  | succ fu ih =>
    intro a
    simp only [chunk_trace, stacked_trace]
    rw [ih (a+1), hround a]
    simp

/-- Handlers used by the C2 witness (each fails). -/
def c2w_handlers : List (Int × FbHandler Nat) :=
  [(1, ⟨"log_email_only", .error ⟨.genericException, "fallback failed"⟩⟩),
   (4, ⟨"queue_for_later", .error ⟨.genericException, "queue full"⟩⟩)]

/-- C2 (amended) witness: at the concrete `send_email` retry config, an
always-failing primary and two failing handlers, the trace interleaves
primary attempts with full fallback chains. -/
theorem c2_amended_witness :
    (send_email_stacked send_email_retry_config
      (fun _ => (.error ⟨.emailException, "smtp send failed"⟩ : Except PyExc Nat))
      c2w_handlers).2 =
      stacked_trace c2w_handlers 0 send_email_retry_config.max_attempts := by
  have hr : ∀ n : Nat,
      is_retryable_exception send_email_retry_config
        (⟨.emailException, "smtp send failed"⟩ : PyExc) = true :=
    fun _ => by decide
  exact c2_amended send_email_retry_config _ (fun _ => ⟨.emailException, "smtp send failed"⟩)
    c2w_handlers (by decide) (fun _ => rfl) hr
    (by intro ph hph; fin_cases hph <;> exact ⟨_, rfl⟩)

/-- The error the C2 counterexample's primary always raises (an
`EmailException`, retryable under `send_email`'s config). -/
def c2cx_primary_error : PyExc := ⟨.emailException, "smtp send failed"⟩

/-- The single registered `send_email` fallback of the counterexample, which
also fails. -/
def c2cx_handlers : List (Int × FbHandler Nat) :=
  [(1, ⟨"log_email_only", .error ⟨.genericException, "fallback failed"⟩⟩)]

/-- The observable trace of the stacked `send_email` decorators at the
counterexample input. -/
def c2cx_trace : List TraceEv :=
  (send_email_stacked send_email_retry_config
    (fun _ => (.error c2cx_primary_error : Except PyExc Nat)) c2cx_handlers).2

/-- C2 counterexample: with `max_attempts = 3`, the fallback handler runs at
trace position 1, BEFORE the second and third primary retry attempts (trace
positions 2 and 4) — so a fallback handler runs before the retry layer has
exhausted its attempts, refuting the claimed retry-then-fallback ordering. -/
theorem c2_counterexample :
    c2cx_trace =
      [.primary 0, .fallback 1, .primary 1, .fallback 1, .primary 2, .fallback 1] ∧
    c2cx_trace[1]? = some (.fallback 1) ∧ c2cx_trace[2]? = some (.primary 1) := by
  decide

end WeReach

namespace WeReach

/-- C9: an SMTP transmission failure (valid inputs, `_send_email_sync`
returning False) makes the `send_email` body RETURN a dict with
`success=False` instead of raising, so the stacked retry/fallback decorators
see a normal return: the primary runs exactly once, no retry happens and no
fallback handler is invoked; and `send_single_email` folds such an item into
`failed_emails` with the fixed message `Failed to send email` while the run
continues. -/
theorem c9_smtp_failure_no_exception (inp : EmailInput) (record_id : Option Nat)
    (handlers : List (Int × FbHandler SendDict)) (st : BulkState) (i : Nat)
    (h1 : inp.recipient_valid = true) (h2 : inp.subject_nonempty = true)
    (h3 : inp.body_nonempty = true) :
    resilient_send_email inp record_id false handlers =
      (.ok ⟨false, record_id, inp.recipient, "failed"⟩ 1, [.primary 0]) ∧
    send_single_email st i ⟨inp.recipient, inp.subject, .returnsFailed⟩ =
      { st with
        failed_sends := st.failed_sends + 1
        failed_emails :=
          st.failed_emails ++ [⟨inp.recipient, inp.subject, "Failed to send email"⟩]
        progress_events := st.progress_events ++ [i + 1] } := by
  constructor
  · have hbody : send_email_body inp record_id false =
        .ok ⟨false, record_id, inp.recipient, "failed"⟩ := by
      simp [send_email_body, h1, h2, h3]
    have hg : (fallback_round (send_email_body inp record_id false) handlers 0).1
        = .ok (⟨false, record_id, inp.recipient, "failed"⟩ : SendDict) := by
      simp [fallback_round, execute_with_fallback, hbody]
    have htr : (fallback_round (send_email_body inp record_id false) handlers 0).2
        = [.primary 0] := by
      simp [fallback_round, execute_with_fallback, hbody]
    unfold resilient_send_email send_email_stacked
    rw [show send_email_retry_config.max_attempts = 2 + 1 from rfl]
    rw [retry_loop_ok send_email_retry_config
      (fun n => fallback_round (send_email_body inp record_id false) handlers n) 0 2 [] _ hg]
    rw [htr]
    simp
  · simp [send_single_email]

/-- Input used by the C9 witness (all validations pass). -/
def c9w_input : EmailInput := ⟨"user@example.com", "Hello", "Body text", true, true, true⟩

/-- Fallback chain used by the C9 witness. -/
def c9w_handlers : List (Int × FbHandler SendDict) :=
  [(1, ⟨"log_email_only", .error ⟨.genericException, "unused"⟩⟩)]

/-- C9 witness: at a concrete valid input whose SMTP send fails, one primary
call, no fallback events, a `success=False` dict, and the fixed bulk failure
entry. -/
theorem c9_smtp_failure_no_exception_witness :
    resilient_send_email c9w_input (some 7) false c9w_handlers =
      (.ok ⟨false, some 7, "user@example.com", "failed"⟩ 1, [.primary 0]) ∧
    send_single_email {} 0 ⟨"user@example.com", "Hello", .returnsFailed⟩ =
      { successful_sends := 0
        failed_sends := 1
        failed_emails := [⟨"user@example.com", "Hello", "Failed to send email"⟩]
        sent_email_ids := []
        progress_events := [1] } := by
  have h := c9_smtp_failure_no_exception c9w_input (some 7) c9w_handlers {} 0 rfl rfl rfl
  exact ⟨h.1, h.2⟩

/-- Per-step accounting: every completion chunk of an in-range item adds
exactly one to `successful_sends + failed_sends`. -/
theorem bulk_counts (items : List EmailItem) :
    ∀ (order : List Nat) (st : BulkState),
      (∀ i ∈ order, i < items.length) →
      (order.foldl (bulk_step items) st).successful_sends
        + (order.foldl (bulk_step items) st).failed_sends
        = st.successful_sends + st.failed_sends + order.length := by
  intro order
  induction order with
  | nil => intro st h; simp
  | cons i rest ih =>
    intro st h
    have hi : i < items.length := h i (by simp)
    have hrest : ∀ j ∈ rest, j < items.length := fun j hj => h j (by simp [hj])
    rw [List.foldl_cons, ih (bulk_step items st i) hrest]
    have hone : (bulk_step items st i).successful_sends + (bulk_step items st i).failed_sends
        = st.successful_sends + st.failed_sends + 1 := by
      simp only [bulk_step, List.getElem?_eq_getElem hi]
      cases hbe : (items[i]).behavior <;> simp [send_single_email, hbe] <;> omega
    simp only [List.length_cons]
    omega

/-- Per-step accounting: each completion chunk appends to `failed_emails`
exactly when it increments `failed_sends`. -/
theorem bulk_step_failed (items : List EmailItem) (st : BulkState) (i : Nat) :
    (bulk_step items st i).failed_emails.length + st.failed_sends
      = (bulk_step items st i).failed_sends + st.failed_emails.length := by
  cases hio : items[i]? with
  | none => simp [bulk_step, hio, Nat.add_comm]
  | some item =>
    cases hbe : item.behavior <;> simp [bulk_step, hio, send_single_email, hbe] <;> omega

/-- The `failed_emails` list grows in lockstep with `failed_sends` across a
whole run. -/
theorem bulk_failed_len (items : List EmailItem) :
    ∀ (order : List Nat) (st : BulkState),
      (order.foldl (bulk_step items) st).failed_emails.length + st.failed_sends
        = (order.foldl (bulk_step items) st).failed_sends + st.failed_emails.length := by
  intro order
  induction order with
  | nil => intro st; simp only [List.foldl_nil]; omega
  | cons i rest ih =>
    intro st
    rw [List.foldl_cons]
    have h1 := ih (bulk_step items st i)
    have h2 := bulk_step_failed items st i
    omega

/-- C1: for every item list and every completion order that processes each of
the `N` items once, the `SendResult` of `send_bulk_emails` satisfies
`successful_sends + failed_sends = total_emails` and
`len(failed_emails) = failed_sends`, whatever combination of per-item
outcomes (success dict, failure dict, raise) occurs. -/
theorem c1_bulk_accounting (items : List EmailItem) (order : List Nat)
    (h : order.Perm (List.range items.length)) :
    (bulk_result items order).successful_sends + (bulk_result items order).failed_sends
      = (bulk_result items order).total_emails ∧
    (bulk_result items order).failed_emails.length
      = (bulk_result items order).failed_sends := by
  have hvalid : ∀ i ∈ order, i < items.length := by
    intro i hi
    have := h.mem_iff.mp hi
    simpa using this
  have hlen : order.length = items.length := by
    simpa using h.length_eq
  have hc := bulk_counts items order {} hvalid
  have hf := bulk_failed_len items order {}
  simp only [bulk_result, send_bulk_emails] at *
  constructor
  · simp at hc
    omega
  · simp at hf
    omega

/-- Items used by the C1 witness: one success, one failure dict, one raise. -/
def c1w_items : List EmailItem :=
  [⟨"a@x.com", "s1", .returnsOk (some 3)⟩,
   ⟨"b@x.com", "s2", .returnsFailed⟩,
   ⟨"c@x.com", "s3", .raises ⟨.genericException, "boom"⟩⟩]

/-- C1 witness: the accounting invariant at a concrete out-of-input-order
run of three items with mixed outcomes. -/
theorem c1_bulk_accounting_witness :
    (bulk_result c1w_items [2, 0, 1]).successful_sends
        + (bulk_result c1w_items [2, 0, 1]).failed_sends
      = (bulk_result c1w_items [2, 0, 1]).total_emails ∧
    (bulk_result c1w_items [2, 0, 1]).failed_emails.length
      = (bulk_result c1w_items [2, 0, 1]).failed_sends :=
  c1_bulk_accounting c1w_items [2, 0, 1] (by decide)

/-- The progress event (if any) that completing item `i` emits: `i + 1` when
the item's processing does not raise, nothing when it raises. -/
def event_of (items : List EmailItem) (i : Nat) : Option Nat :=
  match items[i]? with
  | some item =>
    match item.behavior with
    | .raises _ => none
    | _ => some (i + 1)
  | none => none

/-- C8 (amended): the progress events of a bulk run are exactly, in
completion order, the `i + 1` values of the items whose processing did not
raise: an item that raises emits NO event, and the value reported is the
item's input position plus one (a fixed per-item value, not a monotonically
increasing completion counter). -/
theorem c8_amended (items : List EmailItem) (order : List Nat) :
    (send_bulk_emails items order).progress_events = order.filterMap (event_of items) := by
  suffices h : ∀ (order : List Nat) (st : BulkState),
      (order.foldl (bulk_step items) st).progress_events
        = st.progress_events ++ order.filterMap (event_of items) by
    simpa [send_bulk_emails] using h order {}
  intro order
  induction order with
  | nil => intro st; simp
  | cons i rest ih =>
    intro st
    rw [List.foldl_cons, ih]
    cases hio : items[i]? with
    | none => simp [bulk_step, hio, event_of, List.filterMap_cons]
    | some item =>
      cases hbe : item.behavior <;>
        simp [bulk_step, hio, event_of, hbe, send_single_email, List.filterMap_cons]

/-- A one-item run whose only item raises. -/
def c8cx_items_a : List EmailItem :=
  [⟨"a@x.com", "hello", .raises ⟨.genericException, "boom"⟩⟩]

/-- A two-item run of two successes. -/
def c8cx_items_b : List EmailItem :=
  [⟨"a@x.com", "hello", .returnsOk none⟩, ⟨"b@x.com", "hi", .returnsOk none⟩]

/-- C8 counterexample: (run A) the single item completes — as a failure — yet
NO progress event is emitted, refuting "emitted after each item completes,
whether that item succeeded or failed"; (run B) with completion order
`[1, 0]` (realizable since `max_concurrent` defaults to 3) the reported
counts are `[2, 1]`, which is not monotonically increasing from 1 to
`total_count`, refuting the monotone completion-count claim. -/
theorem c8_counterexample :
    (send_bulk_emails c8cx_items_a [0]).progress_events = [] ∧
    (send_bulk_emails c8cx_items_b [1, 0]).progress_events = [2, 1] := by
  decide

end WeReach

namespace WeReach

/-- The breaker of the C5 counterexample: `failure_threshold = 2`. -/
def c5cx_breaker : CircuitBreaker := { failure_threshold := 2, recovery_timeout := 1000 }

/-- The C5 counterexample call sequence: failure, success, failure — at no
point do two CONSECUTIVE failures occur. -/
def c5cx_calls : List (Int × Except PyExc Nat) :=
  [(0, .error ⟨.networkException, "net down"⟩),
   (1, .ok 0),
   (2, .error ⟨.networkException, "net down"⟩)]

/-- C5 counterexample: after the call outcomes failure–success–failure the
breaker is OPEN with `failure_threshold = 2`, although the sequence contains
no two consecutive failures: `_on_success` does not reset `failure_count`
while CLOSED (the count after the interleaved success is still 1), so the
breaker opens after the threshold of CUMULATIVE failures, refuting "moves to
OPEN exactly after failure_threshold consecutive failures". -/
theorem c5_counterexample :
    (circuit_breaker_run c5cx_breaker c5cx_calls).state = .opened ∧
    (circuit_breaker_run c5cx_breaker (c5cx_calls.take 2)).failure_count = 1 ∧
    (circuit_breaker_run c5cx_breaker (c5cx_calls.take 2)).state = .closed := by
  decide

/-- C5 (amended): the circuit breaker state machine, with "consecutive"
corrected to cumulative: (1) a success while CLOSED changes nothing (in
particular `failure_count` is NOT reset); (2) a failure while CLOSED opens
the breaker exactly when the cumulative `failure_count` reaches
`failure_threshold`; (3) while OPEN and `recovery_timeout` has not elapsed
since the last failure, the call is rejected without invoking the wrapped
operation and the state is unchanged; (4) once elapsed, the next call runs as
a HALF_OPEN probe: on success the breaker closes with `failure_count` reset
to 0, on failure (with the threshold already reached, as holds whenever the
breaker opened) it re-opens with `last_failure_time` reset to now. -/
theorem c5_amended (cb : CircuitBreaker) (now : Int) (e : PyExc) (v : Nat)
    (op : Except PyExc Nat) :
    (cb.state = .closed →
      (circuit_breaker_call cb now (.ok v : Except PyExc Nat)).2 = cb) ∧
    (cb.state = .closed →
      ((circuit_breaker_call cb now (.error e : Except PyExc Nat)).2.state = .opened ↔
        cb.failure_threshold ≤ cb.failure_count + 1)) ∧
    (cb.state = .opened → should_attempt_reset cb now = false →
      circuit_breaker_call cb now op = (.rejected, cb)) ∧
    (cb.state = .opened → should_attempt_reset cb now = true →
      circuit_breaker_call cb now (.ok v : Except PyExc Nat) =
        (.ok v, { cb with state := .closed, failure_count := 0 })) ∧
    (cb.state = .opened → should_attempt_reset cb now = true →
      cb.failure_threshold ≤ cb.failure_count + 1 →
      (circuit_breaker_call cb now (.error e : Except PyExc Nat)).2 =
        { cb with
          state := .opened
          failure_count := cb.failure_count + 1
          last_failure_time := some now }) := by
  refine ⟨?_, ?_, ?_, ?_, ?_⟩
  · intro hs
    simp [circuit_breaker_call, cb_invoke, on_success, hs]
  · intro hs
    by_cases hth : cb.failure_threshold ≤ cb.failure_count + 1 <;>
      simp [circuit_breaker_call, cb_invoke, on_failure, hs, hth]
  · intro hs hr
    simp [circuit_breaker_call, hs, hr]
  · intro hs hr
    simp [circuit_breaker_call, cb_invoke, on_success, hs, hr]
  · intro hs hr hth
    simp [circuit_breaker_call, cb_invoke, on_failure, hs, hr, hth]

/-- A closed breaker one failure away from its threshold. -/
def c5w_closed : CircuitBreaker :=
  { failure_threshold := 2, recovery_timeout := 60, failure_count := 1,
    last_failure_time := some 0, state := .closed }

/-- An open breaker whose recovery timeout has not yet elapsed at time 5. -/
def c5w_open : CircuitBreaker :=
  { failure_threshold := 2, recovery_timeout := 60, failure_count := 2,
    last_failure_time := some 0, state := .opened }

/-- The error used by the C5 witness. -/
def c5w_err : PyExc := ⟨.networkException, "net down"⟩

/-- C5 (amended) witness: each transition of the amended state machine at
concrete breakers — no-op success while closed, threshold-reaching failure,
rejection while open before the timeout, successful probe after the timeout,
and failing probe after the timeout. -/
theorem c5_amended_witness :
    (circuit_breaker_call c5w_closed 5 (.ok 0 : Except PyExc Nat)).2 = c5w_closed ∧
    ((circuit_breaker_call c5w_closed 5 (.error c5w_err : Except PyExc Nat)).2.state
      = .opened ↔ 2 ≤ 1 + 1) ∧
    circuit_breaker_call c5w_open 5 (.ok 0 : Except PyExc Nat) = (.rejected, c5w_open) ∧
    circuit_breaker_call c5w_open 100 (.ok 0 : Except PyExc Nat) =
      (.ok 0, { c5w_open with state := .closed, failure_count := 0 }) ∧
    (circuit_breaker_call c5w_open 100 (.error c5w_err : Except PyExc Nat)).2 =
      { c5w_open with
        state := .opened
        failure_count := 3
        last_failure_time := some 100 } := by
  have h1 := (c5_amended c5w_closed 5 c5w_err 0 (.ok 0)).1 (by decide)
  have h2 := (c5_amended c5w_closed 5 c5w_err 0 (.ok 0)).2.1 (by decide)
  have h3 := (c5_amended c5w_open 5 c5w_err 0 (.ok 0)).2.2.1 (by decide) (by decide)
  have h4 := (c5_amended c5w_open 100 c5w_err 0 (.ok 0)).2.2.2.1 (by decide) (by decide)
  have h5 := (c5_amended c5w_open 100 c5w_err 0 (.ok 0)).2.2.2.2 (by decide) (by decide)
    (by decide)
  exact ⟨h1, h2, h3, h4, h5⟩

end WeReach

namespace WeReach

/-- The config of the C6 counterexample: EXPONENTIAL strategy, jitter off,
and a backoff multiplier below 1 (nothing in `RetryConfig` forbids it). -/
def c6cx_config : RetryConfig :=
  { max_attempts := 3, base_delay := 1, max_delay := 60, backoff_multiplier := 1/2,
    jitter := false, strategy := .exponential_backoff }

/-- C6 counterexample: with `backoff_multiplier = 1/2` the exponential delay
DECREASES from attempt 0 to attempt 1, refuting `delay_for(n+1) >=
delay_for(n)` for every RetryConfig with the EXPONENTIAL strategy and jitter
disabled. -/
theorem c6_counterexample :
    c6cx_config.strategy = .exponential_backoff ∧ c6cx_config.jitter = false ∧
    c6cx_config.calculate_delay 1 0 < c6cx_config.calculate_delay 0 0 := by
  refine ⟨rfl, rfl, ?_⟩
  norm_num [RetryConfig.calculate_delay, c6cx_config, min_def, max_def]

/-- C6 (amended): for the EXPONENTIAL strategy with jitter disabled, if
additionally `backoff_multiplier ≥ 1` and `max_delay ≥ 0` (as all configs in
the repository satisfy), the computed delay is monotone in the attempt number
and capped at `max_delay`. -/
theorem c6_amended (c : RetryConfig) (noise : ℚ)
    (hs : c.strategy = .exponential_backoff)
    (hj : c.jitter = false)
    (hm : 1 ≤ c.backoff_multiplier)
    (hM : 0 ≤ c.max_delay) :
    (∀ n, c.calculate_delay n noise ≤ c.calculate_delay (n+1) noise) ∧
    (∀ n, c.calculate_delay n noise ≤ c.max_delay) := by
  have hform : ∀ n, c.calculate_delay n noise
      = max 0 (min (c.base_delay * c.backoff_multiplier ^ n) c.max_delay) := by
    intro n
    simp [RetryConfig.calculate_delay, hs, hj]
  constructor
  · intro n
    rw [hform n, hform (n+1)]
    rcases le_or_lt 0 c.base_delay with hb | hb
    · have hpow : c.base_delay * c.backoff_multiplier ^ n
          ≤ c.base_delay * c.backoff_multiplier ^ (n+1) :=
        mul_le_mul_of_nonneg_left (pow_le_pow_right₀ hm (Nat.le_succ n)) hb
      exact max_le_max le_rfl (min_le_min hpow le_rfl)
    · have hpow : ∀ k, c.base_delay * c.backoff_multiplier ^ k ≤ 0 := by
        intro k
        have h0 : (0:ℚ) ≤ c.backoff_multiplier ^ k :=
          pow_nonneg (le_trans zero_le_one hm) k
        nlinarith
      have hz : ∀ k, max 0 (min (c.base_delay * c.backoff_multiplier ^ k) c.max_delay)
          = 0 := by
        intro k
        have : min (c.base_delay * c.backoff_multiplier ^ k) c.max_delay ≤ 0 :=
          le_trans (min_le_left _ _) (hpow k)
        exact max_eq_left this
      rw [hz n, hz (n+1)]
  · intro n
    rw [hform n]
    exact max_le hM (min_le_right _ _)

/-- The config of the C6 witness: the dataclass defaults with jitter off. -/
def c6w_config : RetryConfig := { jitter := false }

/-- C6 (amended) witness: monotonicity and the cap at the default config
(base 1, multiplier 2, max 60). -/
theorem c6_amended_witness :
    c6w_config.calculate_delay 0 0 ≤ c6w_config.calculate_delay 1 0 ∧
    c6w_config.calculate_delay 7 0 ≤ c6w_config.max_delay := by
  have h := c6_amended c6w_config 0 rfl rfl (by norm_num [c6w_config])
    (by norm_num [c6w_config])
  exact ⟨h.1 0, h.2 7⟩

end WeReach

namespace WeReach

/-- The handler list is sorted non-strictly ascending by priority. -/
def sorted_by_priority {β : Type} (l : List (Int × β)) : Prop :=
  List.Pairwise (fun a b : Int × β => a.1 ≤ b.1) l

/-- Inserting permutes: `insort x l` holds the same entries as `x :: l`. -/
theorem insort_perm {β : Type} (x : Int × β) (l : List (Int × β)) :
    (insort x l).Perm (x :: l) := by
  induction l with
  | nil => exact List.Perm.refl _
  | cons y ys ih =>
    by_cases h : y.1 < x.1
    · simp only [insort, if_pos h]
      exact (ih.cons y).trans (List.Perm.swap x y ys)
    · simp only [insort, if_neg h]
      exact List.Perm.refl _

/-- Inserting into a priority-sorted list keeps it sorted. -/
theorem insort_sorted {β : Type} (x : Int × β) (l : List (Int × β))
    (hl : sorted_by_priority l) : sorted_by_priority (insort x l) := by
  induction l with
  | nil => simp [insort, sorted_by_priority]
  | cons y ys ih =>
    simp only [sorted_by_priority, List.pairwise_cons] at hl
    obtain ⟨hy, hys⟩ := hl
    by_cases h : y.1 < x.1
    · simp only [insort, if_pos h]
      simp only [sorted_by_priority, List.pairwise_cons]
      refine ⟨?_, ih hys⟩
      intro z hz
      rcases List.mem_cons.mp ((insort_perm x ys).mem_iff.mp hz) with rfl | hmem
      · omega
      · exact hy z hmem
    · simp only [insort, if_neg h]
      simp only [sorted_by_priority, List.pairwise_cons]
      refine ⟨?_, ?_⟩
      · intro z hz
        rcases List.mem_cons.mp hz with rfl | hmem
        · omega
        · have := hy z hmem
          omega
      · exact ⟨hy, hys⟩

/-- Sorting permutes. -/
theorem sort_by_priority_perm {β : Type} (l : List (Int × β)) :
    (sort_by_priority l).Perm l := by
  induction l with
  | nil => exact List.Perm.refl _
  | cons x xs ih =>
    exact ((insort_perm x (sort_by_priority xs)).trans (ih.cons x))

/-- Sorting sorts. -/
theorem sort_by_priority_sorted {β : Type} (l : List (Int × β)) :
    sorted_by_priority (sort_by_priority l) := by
  induction l with
  | nil => simp [sort_by_priority, sorted_by_priority]
  | cons x xs ih => exact insort_sorted x _ ih

/-- Every handler list produced by a sequence of registrations is sorted
ascending by priority. -/
theorem apply_registrations_sorted {α : Type} (regs : List (Int × FbHandler α)) :
    sorted_by_priority (apply_registrations regs) := by
  suffices h : ∀ (regs hs : List (Int × FbHandler α)), sorted_by_priority hs →
      sorted_by_priority (regs.foldl (fun l r => register_fallback l r.1 r.2) hs) by
    exact h regs [] (by simp [sorted_by_priority])
  intro regs
  induction regs with
  | nil => intro hs h; simpa using h
  | cons r rest ih =>
    intro hs h
    rw [List.foldl_cons]
    exact ih _ (sort_by_priority_sorted _)

/-- The handler list produced by a sequence of registrations holds exactly
the registered entries. -/
theorem apply_registrations_perm {α : Type} (regs : List (Int × FbHandler α)) :
    (apply_registrations regs).Perm regs := by
  suffices h : ∀ (regs hs : List (Int × FbHandler α)),
      (regs.foldl (fun l r => register_fallback l r.1 r.2) hs).Perm (hs ++ regs) by
    simpa using h regs []
  intro regs
  induction regs with
  | nil => intro hs; simp
  | cons r rest ih =>
    intro hs
    rw [List.foldl_cons]
    have h1 := ih (register_fallback hs r.1 r.2)
    have h2 : (register_fallback hs r.1 r.2).Perm (hs ++ [r]) := by
      unfold register_fallback
      simpa using sort_by_priority_perm (hs ++ [(r.1, r.2)])
    refine h1.trans ?_
    refine (h2.append_right rest).trans ?_
    simp

instance {α : Type} : IsAntisymm (Int × FbHandler α) (fun a b => a.1 < b.1) :=
  ⟨fun _ _ h1 h2 => (lt_asymm h1 h2).elim⟩

/-- A priority-sorted list with pairwise-distinct priorities is strictly
sorted. -/
theorem sorted_nodup_strict {α : Type} (l : List (Int × FbHandler α))
    (hs : sorted_by_priority l) (hn : (l.map Prod.fst).Nodup) :
    List.Pairwise (fun a b : Int × FbHandler α => a.1 < b.1) l := by
  have hne : List.Pairwise (fun a b : Int × FbHandler α => a.1 ≠ b.1) l := by
    simpa [List.Nodup, List.pairwise_map] using hn
  simp only [sorted_by_priority] at hs
  exact (hs.and hne).imp (fun hab => lt_of_le_of_ne hab.1 hab.2)

/-- Every handler in the tried list comes from the handler chain, with its
priority and id. -/
theorem tried_mem {α : Type} (e : PyExc) (handlers : List (Int × FbHandler α)) :
    ∀ y ∈ (try_fallbacks e handlers).2, ∃ z ∈ handlers, y = (z.1, z.2.id) := by
  induction handlers with
  | nil => simp [try_fallbacks]
  | cons ph rest ih =>
    obtain ⟨p, h⟩ := ph
    cases hb : h.beh with
    | ok v =>
      intro y hy
      simp only [try_fallbacks, hb, List.mem_singleton] at hy
      exact ⟨(p, h), by simp, hy⟩
    | error e2 =>
      intro y hy
      simp only [try_fallbacks, hb] at hy
      rcases List.mem_cons.mp hy with h1 | h2
      · exact ⟨(p, h), by simp, h1⟩
      · obtain ⟨z, hz, hzy⟩ := ih y h2
        exact ⟨z, by simp [hz], hzy⟩

/-- On a priority-sorted handler chain, the handlers tried by the fallback
loop are tried in ascending priority order. -/
theorem tried_sorted {α : Type} (e : PyExc) (handlers : List (Int × FbHandler α))
    (hs : sorted_by_priority handlers) :
    List.Pairwise (fun a b : Int × String => a.1 ≤ b.1) (try_fallbacks e handlers).2 := by
  induction handlers with
  | nil => simp [try_fallbacks]
  | cons ph rest ih =>
    obtain ⟨p, h⟩ := ph
    simp only [sorted_by_priority, List.pairwise_cons] at hs
    obtain ⟨hhead, htail⟩ := hs
    cases hb : h.beh with
    | ok v => simp [try_fallbacks, hb]
    | error e2 =>
      simp only [try_fallbacks, hb]
      rw [List.pairwise_cons]
      constructor
      · intro y hy
        obtain ⟨z, hz, rfl⟩ := tried_mem e rest y hy
        exact hhead z hz
      · exact ih htail

/-- C7 (amended): the handler chain a sequence of `register_fallback` calls
builds is sorted ascending by priority and, as long as the registered
PRIORITIES are pairwise distinct, is independent of the registration order
(for equal priorities Python's stable sort keeps registration order, so
independence fails there); `execute_with_fallback` tries the chain front to
back after the primary fails, hence in ascending priority order. -/
theorem c7_amended {α : Type} (regs₁ regs₂ : List (Int × FbHandler α)) (e : PyExc)
    (hperm : regs₁.Perm regs₂)
    (hnodup : (regs₁.map Prod.fst).Nodup) :
    apply_registrations regs₁ = apply_registrations regs₂ ∧
    List.Pairwise (fun a b : Int × String => a.1 ≤ b.1)
      (execute_with_fallback (.error e) (apply_registrations regs₁)).2 := by
  constructor
  · have h1 := apply_registrations_perm regs₁
    have h2 := apply_registrations_perm regs₂
    have hp : (apply_registrations regs₁).Perm (apply_registrations regs₂) :=
      h1.trans (hperm.trans h2.symm)
    have hn1 : ((apply_registrations regs₁).map Prod.fst).Nodup :=
      ((h1.map Prod.fst).nodup_iff).mpr hnodup
    have hn2 : ((apply_registrations regs₂).map Prod.fst).Nodup :=
      ((h2.map Prod.fst).nodup_iff).mpr (((hperm.map Prod.fst).nodup_iff).mp hnodup)
    exact List.eq_of_perm_of_sorted hp
      (sorted_nodup_strict _ (apply_registrations_sorted regs₁) hn1)
      (sorted_nodup_strict _ (apply_registrations_sorted regs₂) hn2)
  · show List.Pairwise _ (try_fallbacks e (apply_registrations regs₁)).2
    exact tried_sorted e _ (apply_registrations_sorted regs₁)

end WeReach

namespace WeReach

/-- Handler `a` of the C7 witness. -/
def c7w_a : FbHandler Nat := ⟨"handler_a", .error ⟨.genericException, "a down"⟩⟩

/-- Handler `b` of the C7 witness. -/
def c7w_b : FbHandler Nat := ⟨"handler_b", .error ⟨.genericException, "b down"⟩⟩

/-- Handler `c` of the C7 witness. -/
def c7w_c : FbHandler Nat := ⟨"handler_c", .error ⟨.genericException, "c down"⟩⟩

/-- The spec's example priorities `[5, 1, 3]`, registered in source order. -/
def c7w_regs₁ : List (Int × FbHandler Nat) := [(5, c7w_a), (1, c7w_b), (3, c7w_c)]

/-- The same registrations in a different order. -/
def c7w_regs₂ : List (Int × FbHandler Nat) := [(1, c7w_b), (3, c7w_c), (5, c7w_a)]

/-- C7 (amended) witness: the spec's `[5, 1, 3]` example — distinct
priorities registered in two different orders yield the same chain, tried in
ascending priority order. -/
theorem c7_amended_witness :
    apply_registrations c7w_regs₁ = apply_registrations c7w_regs₂ ∧
    List.Pairwise (fun a b : Int × String => a.1 ≤ b.1)
      (execute_with_fallback (.error ⟨.genericException, "primary down"⟩)
        (apply_registrations c7w_regs₁)).2 :=
  c7_amended c7w_regs₁ c7w_regs₂ ⟨.genericException, "primary down"⟩ (by decide) (by decide)

/-- First handler of the C7 counterexample. -/
def c7cx_a : FbHandler Nat := ⟨"handler_a", .error ⟨.genericException, "a down"⟩⟩

/-- Second handler of the C7 counterexample (same priority as the first). -/
def c7cx_b : FbHandler Nat := ⟨"handler_b", .error ⟨.genericException, "b down"⟩⟩

/-- The failing primary of the C7 counterexample. -/
def c7cx_err : PyExc := ⟨.genericException, "primary down"⟩

/-- C7 counterexample: two handlers registered for the same operation with
EQUAL priority 1, in the two possible orders — the same multiset of
registrations — are tried in two DIFFERENT orders (Python's stable sort
keeps registration order among equal priorities), refuting "the order
handlers are tried in is independent of the order in which they were
registered". -/
theorem c7_counterexample :
    ([(1, c7cx_a), (1, c7cx_b)] : List (Int × FbHandler Nat)).Perm
      [(1, c7cx_b), (1, c7cx_a)] ∧
    (execute_with_fallback (.error c7cx_err)
        (apply_registrations [(1, c7cx_a), (1, c7cx_b)])).2 ≠
      (execute_with_fallback (.error c7cx_err)
        (apply_registrations [(1, c7cx_b), (1, c7cx_a)])).2 := by
  decide

/-- The count of tasks inside the semaphore block starts at zero. -/
theorem in_flight_replicate (n : Nat) :
    in_flight_count (List.replicate n .pending) = 0 := by
  induction n with
  | zero => rfl
  | succ m ih => simp [in_flight_count, List.replicate_succ, List.countP_cons, ih]

/-- Acquiring the semaphore raises the in-flight count by one. -/
theorem in_flight_count_set_acquire (l : List TaskPhase) (i : Nat)
    (h : l[i]? = some .pending) :
    in_flight_count (l.set i .inFlight) = in_flight_count l + 1 := by
  induction l generalizing i with
  | nil => simp at h
  | cons a t ih =>
    cases i with
    | zero =>
      simp only [List.getElem?_cons_zero, Option.some_inj] at h
      subst h
      simp [in_flight_count, List.set, List.countP_cons]
    | succ j =>
      simp only [List.getElem?_cons_succ] at h
      simp only [List.set, in_flight_count, List.countP_cons]
      have := ih j h
      simp only [in_flight_count] at this
      omega

/-- Finishing a task lowers the in-flight count by one. -/
theorem in_flight_count_set_finish (l : List TaskPhase) (i : Nat)
    (h : l[i]? = some .inFlight) :
    in_flight_count (l.set i .done) + 1 = in_flight_count l := by
  induction l generalizing i with
  | nil => simp at h
  | cons a t ih =>
    cases i with
    | zero =>
      simp only [List.getElem?_cons_zero, Option.some_inj] at h
      subst h
      simp [in_flight_count, List.set, List.countP_cons]
    | succ j =>
      simp only [List.getElem?_cons_succ] at h
      simp only [List.set, in_flight_count, List.countP_cons]
      have := ih j h
      simp only [in_flight_count] at this
      omega

/-- C10: in every state reachable during a bulk run with
`max_concurrent = c`, at most `c` per-item operations are inside the
`async with semaphore` block simultaneously. -/
theorem c10_bounded_concurrency (c n : Nat) (s : List TaskPhase)
    (h : BulkReachable c n s) : in_flight_count s ≤ c := by
  unfold BulkReachable at h
  induction h with
  | refl => simp [in_flight_replicate]
  | tail hsteps hstep ih =>
    cases hstep with
    | acquire i hi hc =>
      rw [in_flight_count_set_acquire _ i hi]
      omega
    | finish i hi =>
      have := in_flight_count_set_finish _ i hi
      omega

/-- C10 witness: with `max_concurrent = 1` and two items, the state after the
first task acquires the semaphore is reachable and respects the bound. -/
theorem c10_bounded_concurrency_witness :
    in_flight_count [TaskPhase.inFlight, TaskPhase.pending] ≤ 1 := by
  have hstep : BulkTaskStep 1 (List.replicate 2 TaskPhase.pending)
      ((List.replicate 2 TaskPhase.pending).set 0 .inFlight) :=
    BulkTaskStep.acquire _ 0 (by decide) (by decide)
  exact c10_bounded_concurrency 1 2 _ (Relation.ReflTransGen.single hstep)

end WeReach
